import Mathlib

/-!
Verification of the SheRockets conjoint-analysis scripts
(`src/data_analysis/*.py`): a shallow embedding of the choice-set
construction, attribute effects coding, collinearity exclusion,
effect-size conversion, bootstrap significance and significance-tier
reporting, with proofs about the specification's claims.

Conventions of the embedding: the floating-point arithmetic of the
source is carried out over `ℚ` (every quantity the claims mention is an
exact decimal/rational computation); a missing/NaN CSV cell is
`Option.none`; external library calls whose values are irrational or
random (scipy test statistics, the statsmodels/sklearn MLE solver, the
exponential inside the logistic link, `numpy.random`) enter as explicit
function parameters, so that what the repository's own code does with
them stays fully explicit.
-/

namespace SheRockets

/-- Python's substring test `sub in s`, on explicit character lists:
does `sub` occur at the head of `s`? -/
def beginsWith : List Char → List Char → Bool
  | _, [] => true
  | [], _ :: _ => false
  | c :: cs, d :: ds => c = d && beginsWith cs ds

/-- Python's substring test `sub in s`: does `sub` occur anywhere in `s`? -/
def containsChars : List Char → List Char → Bool
  | [], sub => sub.isEmpty
  | c :: cs, sub => beginsWith (c :: cs) sub || containsChars cs sub

/-- Python's `sub in value` on strings. -/
def strContains (s sub : String) : Bool :=
  containsChars s.toList sub.toList

/-- From `conditional_logit_analysis.get_significance` (used verbatim
again in `improved_conditional_logit.get_significance`). -/
def get_significance (p : ℚ) : String :=
  if p < 0.001 then "***"
  else if p < 0.01 then "**"
  else if p < 0.05 then "*"
  else if p < 0.1 then "(marginal)"
  else "n.s."

/-- From `final_robust_conjoint_analysis.get_significance_final`. -/
def get_significance_final (p : ℚ) : String :=
  if p < 0.001 then "***"
  else if p < 0.01 then "**"
  else if p < 0.05 then "*"
  else if p < 0.1 then "(marginal)"
  else "n.s."

/-- The seven attributes, in the order every script iterates them. -/
def attrList : List String :=
  ["Tutor", "Color_palette", "Pricing", "Message_success_", "Message_failure_",
    "Storytelling", "Role_play"]

/-- The value `get_effects_coding_final` returns: a scalar for the binary
attributes, a dict keyed by pricing level for `Pricing` (the Python code
distinguishes the two with `isinstance(a_effects, dict)`). -/
inductive EffectsCode where
  | scalar : ℚ → EffectsCode
  | table : List (String × ℚ) → EffectsCode
deriving DecidableEq

/-- From `final_robust_conjoint_analysis.get_effects_coding_final`; the
Python substring test `sub in str(value)` is `strContains`. -/
def get_effects_coding_final (value : String) (attr : String) : EffectsCode :=
  if attr = "Tutor" then .scalar (if strContains value "Female" then 1 else -1)
  else if attr = "Color_palette" then .scalar (if strContains value "Friendly" then 1 else -1)
  else if attr = "Pricing" then
    (if strContains value "School pays" then
      .table [("free", 1), ("4.99", 0), ("7.99", 0), ("9.99", 0), ("12.99", -1)]
    else if strContains value "$4.99" then
      .table [("free", 0), ("4.99", 1), ("7.99", 0), ("9.99", 0), ("12.99", -1)]
    else if strContains value "$7.99" then
      .table [("free", 0), ("4.99", 0), ("7.99", 1), ("9.99", 0), ("12.99", -1)]
    else if strContains value "$9.99" then
      .table [("free", 0), ("4.99", 0), ("7.99", 0), ("9.99", 1), ("12.99", -1)]
    else
      .table [("free", -1), ("4.99", -1), ("7.99", -1), ("9.99", -1), ("12.99", 1)])
  else if attr = "Message_success_" then
    .scalar (if strContains value "effort and persistence" then 1 else -1)
  else if attr = "Message_failure_" then
    .scalar (if strContains value "mistakes are how scientists learn" then 1 else -1)
  else if attr = "Storytelling" then
    .scalar (if strContains value "Space rescue story" then 1 else -1)
  else if attr = "Role_play" then
    .scalar (if strContains value "Hero astronaut" then 1 else -1)
  else .scalar 0

/-- Python's `dict.get(key, 0)` on the association lists of `EffectsCode.table`. -/
def lookupD (l : List (String × ℚ)) (k : String) : ℚ :=
  ((l.find? (fun e => e.1 == k)).map Prod.snd).getD 0

/-- The per-attribute record columns of `convert_to_choice_format_final`:
when the coding is a dict, one `{attr}_{level}` column per key with value
`a_effects[level] - b_effects.get(level, 0)`; otherwise the single
`{attr}_diff` column `a_effects - b_effects`. The source only ever pairs
two codings of the same attribute, so the mixed cases cannot arise; they
are given the vacuous values Python's lookups would produce. -/
def diffColumns (attr : String) (aE bE : EffectsCode) : List (String × ℚ) :=
  match aE with
  | .table la =>
      la.map (fun e =>
        (attr ++ "_" ++ e.1,
          e.2 - lookupD (match bE with | .table lb => lb | .scalar _ => []) e.1))
  | .scalar a =>
      [(attr ++ "_diff", a - (match bE with | .scalar b => b | .table _ => 0))]

/-- One wide-format respondent row: the `Task{t}_choice` cells (a
missing/NaN cell is `none`), the `A_{attr}{t}` / `B_{attr}{t}` cells
indexed by attribute name and task number, and the `Grade` field. -/
structure Row where
  grade : ℚ
  taskChoice : Nat → Option String
  cellA : String → Nat → String
  cellB : String → Nat → String

/-- One record of the choice-format frame built by
`convert_to_choice_format_final`. -/
structure ChoiceRecord where
  respondent_id : Nat
  task : Nat
  choice : ℚ
  grade : ℚ
  cols : List (String × ℚ)
deriving DecidableEq

/-- From `final_robust_conjoint_analysis.convert_to_choice_format_final`,
one record per respondent×task: the observed selection is coded
`1 if choice == 'A' else 0`, so every non-"A" cell — "B", any malformed
value, or a missing cell — is coded 0; no value is rejected. -/
def convertRowTask (idx : Nat) (row : Row) (task : Nat) : ChoiceRecord :=
  { respondent_id := idx
    task := task
    choice := if row.taskChoice task = some "A" then 1 else 0
    grade := row.grade
    cols := attrList.flatMap (fun attr =>
      diffColumns attr (get_effects_coding_final (row.cellA attr task) attr)
        (get_effects_coding_final (row.cellB attr task) attr)) }

/-- The whole conversion loop of `convert_to_choice_format_final`
(tasks run over `range(1, 9)`). -/
def convert_to_choice_format_final (rows : List Row) : List ChoiceRecord :=
  rows.enum.flatMap (fun er => (List.range 8).map (fun t => convertRowTask er.1 er.2 (t + 1)))

/-- From `conditional_logit_analysis.convert_to_conditional_logit_format`:
the per-alternative outcome column is `1 if (choice == alt) else 0`. -/
def chosen_code (choice : Option String) (alt : String) : ℚ :=
  if choice = some alt then 1 else 0

/-- A concrete respondent row whose task-choice cells all hold `c`. -/
def rowWithChoice (c : Option String) : Row :=
  { grade := 5
    taskChoice := fun _ => c
    cellA := fun _ _ => "School pays (free for families)"
    cellB := fun _ _ => "Free trial + $12.99/month" }

/-- From `conditional_logit_analysis.get_all_attribute_levels`:
(attribute, value, code) triples; `create_dummy_variables` then creates
exactly one 0/1 design column per triple. Apostrophes in the survey text
are the source's `’` escapes. -/
def get_all_attribute_levels : List (String × String × String) :=
  [("Tutor", "Female AI tutor", "female_tutor"),
    ("Tutor", "Male AI tutor", "male_tutor"),
    ("Color_palette", "Friendly & warm (coral / lavender / peach)", "friendly_colors"),
    ("Color_palette", "Tech & bold (deep blue / black / neon)", "tech_colors"),
    ("Pricing", "School pays (free for families)", "school_pays"),
    ("Pricing", "Free trial + $4.99/month", "pricing_4.99"),
    ("Pricing", "Free trial + $7.99/month", "pricing_7.99"),
    ("Pricing", "Free trial + $9.99/month", "pricing_9.99"),
    ("Pricing", "Free trial + $12.99/month", "pricing_12.99"),
    ("Message_success_", "Great job — your effort and persistence helped you solve this!",
      "growth_message"),
    ("Message_success_",
      "You solved it so quickly — you must have a really special talent for science!",
      "brilliance_message"),
    ("Message_failure_",
      "That didn’t work, but mistakes are how scientists learn. Let’s try another design.",
      "supportive_message"),
    ("Message_failure_", "This design didn’t launch successfully. Here is what went wrong.",
      "neutral_message"),
    ("Storytelling",
      "Space rescue story: \"Your spaceship must deliver medicine to astronauts stranded on the Moon before their oxygen runs out.\"",
      "space_rescue_story"),
    ("Storytelling", "No story: Just design and test rockets in a sandbox-style game.",
      "no_story"),
    ("Role_play",
      "Hero astronaut: You are the astronaut in charge — the team is counting on you to complete this mission.",
      "hero_astronaut"),
    ("Role_play", "No specific role: Just design a rocket and see how it works.",
      "no_specific_role")]

/-- How many record columns `convert_to_choice_format_final` emits for a
Pricing cell with this value: the size of the effects-coding dict (the
scalar case would emit the single `_diff` column). -/
def pricingColumnCount (value : String) : Nat :=
  match get_effects_coding_final value "Pricing" with
  | .table l => l.length
  | .scalar _ => 1

/-- `np.mean` of a rational list (all uses are on nonempty lists). -/
def listMean (l : List ℚ) : ℚ := l.sum / l.length

/-- From `proper_conjoint_analysis.calculate_pp_effects_proper`:
`pp_effect = coef * 25` for every feature. -/
def calculate_pp_effects_proper (coefficients : List ℚ) : List ℚ :=
  coefficients.map (fun c => c * 25)

/-- From `simple_conjoint_results.calculate_pp_effects`:
`return coefficients * 25`. -/
def calculate_pp_effects (coefficients : List ℚ) : List ℚ :=
  coefficients.map (fun c => c * 25)

/-- From `final_robust_conjoint_analysis.calculate_pp_effects_final`:
`pp_effect = coef * 25`. -/
def calculate_pp_effects_final (coefficients : List ℚ) : List ℚ :=
  coefficients.map (fun c => c * 25)

/-- From `improved_conditional_logit.calculate_ame` (byte-for-byte the
same computation as `calculate_ame_alternative` and
`calculate_ame_conditional_logit` in `conditional_logit_analysis`):
`mean(p̂(1−p̂)) * coef * 100` per feature, `predicted_probs` being the
fitted probabilities `result.predict()`. -/
def calculate_ame (predicted_probs : List ℚ) (params : List ℚ) : List ℚ :=
  params.map (fun c => listMean (predicted_probs.map (fun p => p * (1 - p))) * c * 100)

/-- From `corrected_attribute_analysis.analyze_single_attribute_corrected`
(the significance block): the chi-square p-value
(`stats.chi2_contingency`, replaced by 1.0 when the call raises or one of
the present/absent groups is empty) is then overwritten with
`min(p_value, p_value_t)` — the t-test p-value from `stats.ttest_ind` —
whenever the t-test succeeds ("use the more conservative p-value"). The
scipy test statistics enter as parameters. -/
def analyze_single_attribute_p (groups_nonempty : Bool) (chi2_ok : Bool) (chi2_p : ℚ)
    (ttest_ok : Bool) (ttest_p : ℚ) : ℚ :=
  let p1 := if groups_nonempty then (if chi2_ok then chi2_p else 1) else 1
  if groups_nonempty && ttest_ok then min p1 ttest_p else p1

/-- A 2×2 rational matrix: the `X_weighted.T @ X_weighted` matrix of a
two-column design. -/
structure Mat2 where
  a : ℚ
  b : ℚ
  c : ℚ
  d : ℚ
deriving DecidableEq

/-- `X_weighted.T @ X_weighted` where `X_weighted = X * np.sqrt(w)`: the
square roots cancel, so the entries are the exact rationals
`Σ wᵢ xᵢ xᵢᵀ`. -/
def xtwx (X : List (ℚ × ℚ)) (w : List ℚ) : Mat2 :=
  { a := ((X.zip w).map (fun e => e.2 * e.1.1 * e.1.1)).sum
    b := ((X.zip w).map (fun e => e.2 * e.1.1 * e.1.2)).sum
    c := ((X.zip w).map (fun e => e.2 * e.1.2 * e.1.1)).sum
    d := ((X.zip w).map (fun e => e.2 * e.1.2 * e.1.2)).sum }

/-- `np.linalg.inv`, which raises `LinAlgError` (here `none`) exactly on
a singular matrix. -/
def invMat2 (M : Mat2) : Option Mat2 :=
  if M.a * M.d - M.b * M.c = 0 then none
  else
    some { a := M.d / (M.a * M.d - M.b * M.c), b := -M.b / (M.a * M.d - M.b * M.c)
           c := -M.c / (M.a * M.d - M.b * M.c), d := M.a / (M.a * M.d - M.b * M.c) }

/-- From `proper_conjoint_analysis.calculate_proper_p_values` for a
two-column design: the try block derives Wald p-values from
`inv(X_weighted.T @ X_weighted)` (that derivation evaluates `np.sqrt`
and `stats.norm.cdf` and enters as the parameter `wald`); the except
branch for `LinAlgError` returns the placeholder
`np.ones(len(coef)) * 0.5`. -/
def calculate_proper_p_values (wald : Mat2 → List ℚ) (X : List (ℚ × ℚ)) (w : List ℚ) :
    List ℚ :=
  match invMat2 (xtwx X w) with
  | some cov => wald cov
  | none => List.replicate 2 (1/2)

/-- From `conjoint_results_analysis._calculate_p_values` for a two-column
design: on the except branch the standard errors are the fabricated
`np.ones(len(coef)) * 0.1`, from which Wald z-scores are then computed;
the success branch (`np.sqrt` of the covariance diagonal) enters as the
parameter `seOk`, and the final z-to-p conversion is outside this
selection step. -/
def calculate_p_values_se (seOk : Mat2 → List ℚ) (X : List (ℚ × ℚ)) (w : List ℚ) :
    List ℚ :=
  match invMat2 (xtwx X w) with
  | some cov => seOk cov
  | none => List.replicate 2 (1/10)


/-- `np.mean` of a boolean mask: the fraction of entries satisfying the
predicate (0 on an empty list, but the bootstrap loop always runs at
least once). -/
def tailFraction (l : List ℚ) (pred : ℚ → Bool) : ℚ :=
  (l.countP pred : ℚ) / l.length

/-- From `final_robust_conjoint_analysis.calculate_bootstrap_p_values`,
the per-coefficient final step (lines 186–194): the two-tailed value
`2 * min(mean(dist >= abs(c)), mean(dist <= -abs(c)))` over the bootstrap
coefficient distribution, clamped below by
`max(p_value, 1e-6)  # Minimum p-value to avoid 0`. -/
def bootstrap_p (orig : ℚ) (dist : List ℚ) : ℚ :=
  max (2 * min (tailFraction dist (fun x => decide (|orig| ≤ x)))
        (tailFraction dist (fun x => decide (x ≤ -|orig|))))
    (1/1000000)

/-- A statsmodels `Logit` fit result as the scripts consume it:
parameters, Wald p-values, standard errors, confidence intervals, and
the in-sample predicted probabilities `result.predict()`. -/
structure FitResult where
  params : List ℚ
  pvalues : List ℚ
  bse : List ℚ
  conf_int : List (ℚ × ℚ)
  predicted : List ℚ

/-- The difference-coded choice frame of `improved_conditional_logit`:
the `_diff` feature columns, one value row per ChoiceSet, and the
`chosen_a` outcome column. -/
structure DiffData where
  features : List String
  rows : List (String → ℚ)
  chosen : List ℚ

/-- `choice_data[feature].sum()`. -/
def colSum (d : DiffData) (f : String) : ℚ :=
  (d.rows.map (fun r => r f)).sum

/-- From `improved_conditional_logit.run_conditional_logit_model`
(lines 121–134) and identically
`conditional_logit_analysis.run_alternative_conditional_logit`
(lines 205–218): a feature is kept iff `abs(column.sum()) > 1e-10`. -/
def final_features (d : DiffData) : List String :=
  d.features.filter (fun f => decide ((1 : ℚ)/10^10 < |colSum d f|))

/-- The complementary `collinear_features` list. -/
def collinear_features (d : DiffData) : List String :=
  d.features.filter (fun f => !(decide ((1 : ℚ)/10^10 < |colSum d f|)))

/-- The design matrix `X = choice_data[final_features]` handed to
`sm.Logit(y, X)`: its columns are exactly the kept features. -/
def X_design (d : DiffData) : List (List ℚ) :=
  d.rows.map (fun r => (final_features d).map r)

/-- Left-to-right removal of every occurrence of `sub` from a character
list; the fuel argument (instantiated with the list length) only makes
the recursion structural. -/
def removeAllAux (sub : List Char) : Nat → List Char → List Char
  | _, [] => []
  | 0, s => s
  | fuel + 1, c :: cs =>
    if sub ≠ [] ∧ beginsWith (c :: cs) sub = true then
      removeAllAux sub fuel (List.drop (sub.length - 1) cs)
    else c :: removeAllAux sub fuel cs

/-- Python's `feature.replace('_diff', '')`. -/
def replaceDiff (s : String) : String :=
  String.mk (removeAllAux "_diff".toList s.toList.length s.toList)

/-- From `improved_conditional_logit.get_level_info`: the
code → (attribute, display level) mapping (`None` off the table).
Apostrophes in the survey text are the source's `’` characters. -/
def get_level_info (code : String) : Option (String × String) :=
  if code = "female_tutor" then some ("Tutor", "Female AI tutor")
  else if code = "male_tutor" then some ("Tutor", "Male AI tutor")
  else if code = "friendly_colors" then
    some ("Color_palette", "Friendly & warm (coral / lavender / peach)")
  else if code = "tech_colors" then
    some ("Color_palette", "Tech & bold (deep blue / black / neon)")
  else if code = "school_pays" then some ("Pricing", "School pays (free for families)")
  else if code = "pricing_4.99" then some ("Pricing", "Free trial + $4.99/month")
  else if code = "pricing_7.99" then some ("Pricing", "Free trial + $7.99/month")
  else if code = "pricing_9.99" then some ("Pricing", "Free trial + $9.99/month")
  else if code = "pricing_12.99" then some ("Pricing", "Free trial + $12.99/month")
  else if code = "growth_message" then
    some ("Message_success_", "Great job — your effort and persistence helped you solve this!")
  else if code = "brilliance_message" then
    some ("Message_success_",
      "You solved it so quickly — you must have a really special talent for science!")
  else if code = "supportive_message" then
    some ("Message_failure_",
      "That didn’t work, but mistakes are how scientists learn. Let’s try another design.")
  else if code = "neutral_message" then
    some ("Message_failure_", "This design didn’t launch successfully. Here is what went wrong.")
  else if code = "space_rescue_story" then
    some ("Storytelling",
      "Space rescue story: \"Your spaceship must deliver medicine to astronauts stranded on the Moon before their oxygen runs out.\"")
  else if code = "no_story" then
    some ("Storytelling", "No story: Just design and test rockets in a sandbox-style game.")
  else if code = "hero_astronaut" then
    some ("Role_play",
      "Hero astronaut: You are the astronaut in charge — the team is counting on you to complete this mission.")
  else if code = "no_specific_role" then
    some ("Role_play", "No specific role: Just design a rocket and see how it works.")
  else none

/-- One EffectEstimate record of the results table. -/
structure EffectRec where
  attributeName : String
  level : String
  level_code : String
  coefficient : ℚ
  std_error : ℚ
  p_value : ℚ
  conf_lower : ℚ
  conf_upper : ℚ
  pp_effect : ℚ
  significance : String
deriving DecidableEq

/-- `conf_int.iloc[i]` with the scripts' implicit position access. -/
def confAt (l : List (ℚ × ℚ)) (i : Nat) : ℚ × ℚ :=
  l.getD i (0, 0)

/-- From `improved_conditional_logit.run_conditional_logit_model`
(lines 136–205): fit the model on the kept columns only (`fit` is the
statsmodels Logit maximum-likelihood solver), compute AMEs, emit one
estimated record per kept feature and one placeholder record —
coefficient 0, standard error 0, p-value 1, significance
"excluded (collinear)" — per excluded feature; features whose code is
not in the level table are dropped from the results
(`if level_info:`). -/
def run_conditional_logit_model (fit : List (List ℚ) → List ℚ → FitResult)
    (d : DiffData) : List EffectRec :=
  let res := fit (X_design d) d.chosen
  let pp := calculate_ame res.predicted res.params
  ((final_features d).enum.filterMap (fun e =>
    (get_level_info (replaceDiff e.2)).map (fun li =>
      { attributeName := li.1
        level := li.2
        level_code := replaceDiff e.2
        coefficient := res.params.getD e.1 0
        std_error := res.bse.getD e.1 0
        p_value := res.pvalues.getD e.1 0
        conf_lower := (confAt res.conf_int e.1).1
        conf_upper := (confAt res.conf_int e.1).2
        pp_effect := pp.getD e.1 0
        significance := get_significance (res.pvalues.getD e.1 0) })))
  ++ ((collinear_features d).filterMap (fun f =>
    (get_level_info (replaceDiff f)).map (fun li =>
      { attributeName := li.1
        level := li.2
        level_code := replaceDiff f
        coefficient := 0
        std_error := 0
        p_value := 1
        conf_lower := 0
        conf_upper := 0
        pp_effect := 0
        significance := "excluded (collinear)" })))

/-- The concrete witness data: two difference features over two
ChoiceSets; the `male_tutor_diff` column is [1, −1] and sums to zero,
the `female_tutor_diff` column is [1, 1]. -/
def wData : DiffData :=
  { features := ["female_tutor_diff", "male_tutor_diff"]
    rows := [fun s => if s = "male_tutor_diff" then 1 else if s = "female_tutor_diff" then 1 else 0,
      fun s => if s = "male_tutor_diff" then -1 else if s = "female_tutor_diff" then 1 else 0]
    chosen := [1, 0] }

/-- A trivial stand-in for the external MLE solver, used only to
instantiate `zero_variance_excluded` on `wData`. -/
def constFit : List (List ℚ) → List ℚ → FitResult :=
  fun _ _ => { params := [], pvalues := [], bse := [], conf_int := [], predicted := [] }

/-- Python's `col_name in row` on a wide row, modelled as an association
list from column name to cell text. -/
def rowHas (row : List (String × String)) (k : String) : Bool :=
  row.any (fun e => e.1 == k)

/-- `row[col_name]` (all lookups in the embedded fragment are guarded by
`rowHas`). -/
def rowGet (row : List (String × String)) (k : String) : String :=
  ((row.find? (fun e => e.1 == k)).map Prod.snd).getD ""

/-- Python's `attr.lower()`. -/
def pyLower (s : String) : String :=
  String.mk (s.toList.map Char.toLower)

/-- From `conjoint_analysis._convert_to_long_format` (lines 136–142), the
same pattern as `enhanced_conjoint_analysis._convert_to_enhanced_long_format`
(lines 173–181): for each of the 7 attributes, the `{option}_{attr}{task}`
cell is copied into the record only when the column exists
(`if col_name in row:`); an absent column is skipped without any error. -/
def convert_long_attrs (row : List (String × String)) (alt : String) (task : Nat) :
    List (String × String) :=
  attrList.foldl (fun acc attr =>
    let col := alt ++ "_" ++ attr ++ toString task
    if rowHas row col then acc ++ [(pyLower attr, rowGet row col)] else acc) []

/-- A complete option-A row for task 1: all 7 attribute columns present. -/
def fullRowA : List (String × String) :=
  [("A_Tutor1", "Female AI tutor"),
    ("A_Color_palette1", "Friendly & warm (coral / lavender / peach)"),
    ("A_Pricing1", "School pays (free for families)"),
    ("A_Message_success_1", "Great job — your effort and persistence helped you solve this!"),
    ("A_Message_failure_1",
      "That didn’t work, but mistakes are how scientists learn. Let’s try another design."),
    ("A_Storytelling1", "No story: Just design and test rockets in a sandbox-style game."),
    ("A_Role_play1", "No specific role: Just design a rocket and see how it works.")]

/-- The same row with the `A_Tutor1` column absent. -/
def rowMissingTutor : List (String × String) :=
  [("A_Color_palette1", "Friendly & warm (coral / lavender / peach)"),
    ("A_Pricing1", "School pays (free for families)"),
    ("A_Message_success_1", "Great job — your effort and persistence helped you solve this!"),
    ("A_Message_failure_1",
      "That didn’t work, but mistakes are how scientists learn. Let’s try another design."),
    ("A_Storytelling1", "No story: Just design and test rockets in a sandbox-style game."),
    ("A_Role_play1", "No specific role: Just design a rocket and see how it works.")]

/-- Dot product of coefficient and feature vectors. -/
def dot (a b : List ℚ) : ℚ :=
  ((a.zip b).map (fun e => e.1 * e.2)).sum

/-- Componentwise vector sum. -/
def vecAdd (a b : List ℚ) : List ℚ :=
  (a.zip b).map (fun e => e.1 + e.2)

/-- Scalar multiple of a vector. -/
def vecScale (c : ℚ) (v : List ℚ) : List ℚ :=
  v.map (fun x => c * x)

/-- The fitted probability σ(βᵀx) = 1/(1 + e^(−βᵀx)); the exponential
`ex` is a fixed mathematical function and enters as a parameter. -/
def predict_prob (ex : ℚ → ℚ) (beta x : List ℚ) : ℚ :=
  1 / (1 + ex (-(dot beta x)))

/-- One ascent step of the deterministic convex maximum-likelihood
solver: β ← β + η Σᵢ (yᵢ − p̂ᵢ) xᵢ with the fixed step size η = 1/100. -/
def solverStep (ex : ℚ → ℚ) (X : List (List ℚ)) (y : List ℚ) (beta : List ℚ) : List ℚ :=
  vecAdd beta (vecScale (1/100)
    (((X.zip y).map (fun e => vecScale (e.2 - predict_prob ex beta e.1) e.1)).foldl
      vecAdd (List.replicate beta.length 0)))

/-- The model fit of
`LogisticRegression(random_state=42, max_iter=1000).fit(X, y)` (and of
`sm.Logit(y, X).fit()`): the deterministic iterative MLE solver, run for
the fixed iteration budget from the zero vector. The constant seed 42 is
hard-coded at the call site, so no run-dependent state enters. -/
def fitLogit (ex : ℚ → ℚ) (X : List (List ℚ)) (y : List ℚ) : List ℚ :=
  (solverStep ex X y)^[1000] (List.replicate (X.headD []).length 0)

/-- The bootstrap index draw of iteration `i` over `n` choice rows:
`np.random.choice(len(X), size=len(X), replace=True)`, reading the
ambient `numpy.random` stream `rng` — the only run-to-run varying
input of the whole analysis. -/
def bootIndices (rng : Nat → Nat) (n i : Nat) : List Nat :=
  (List.range n).map (fun j => rng (i * n + j) % n)

/-- From `final_robust_conjoint_analysis.calculate_bootstrap_p_values`:
refit on `n_bootstrap` resampled datasets and convert each coefficient's
bootstrap distribution to the clamped two-tailed p-value `bootstrap_p`.
(The except branch that reuses the original coefficients cannot trigger
here because the embedded fit is total.) -/
def calculate_bootstrap_p_values (ex : ℚ → ℚ) (rng : Nat → Nat) (origCoefs : List ℚ)
    (X : List (List ℚ)) (y : List ℚ) (nBoot : Nat) : List ℚ :=
  let bootCoefs := (List.range nBoot).map (fun i =>
    let idx := bootIndices rng X.length i
    fitLogit ex (idx.map (fun j => X.getD j [])) (idx.map (fun j => y.getD j 0)))
  origCoefs.enum.map (fun e => bootstrap_p e.2 (bootCoefs.map (fun bc => bc.getD e.1 0)))

/-- One row of the final robust results table. -/
structure RobustRec where
  feature : String
  coefficient : ℚ
  p_value : ℚ
  pp_effect : ℚ
  significance : String
deriving DecidableEq

/-- From `final_robust_conjoint_analysis.run_robust_analysis`
(lines 115–154): fit the logistic model with the fixed solver
configuration, compute bootstrap p-values (1000 iterations) from the
ambient random stream, convert coefficients to effect sizes, and emit
one record per feature column. -/
def run_robust_analysis (ex : ℚ → ℚ) (rng : Nat → Nat) (features : List String)
    (X : List (List ℚ)) (y : List ℚ) : List RobustRec :=
  let coefficients := fitLogit ex X y
  let p_values := calculate_bootstrap_p_values ex rng coefficients X y 1000
  let pp := calculate_pp_effects_final coefficients
  features.enum.map (fun e =>
    { feature := e.2
      coefficient := coefficients.getD e.1 0
      p_value := p_values.getD e.1 0
      pp_effect := pp.getD e.1 0
      significance := get_significance_final (p_values.getD e.1 0) })

/-- Claim C9: the significance tier is a total function of the p-value
alone with the fixed thresholds 0.001, 0.01, 0.05, 0.1 — "***" below
0.001, "**" on [0.001, 0.01), "*" on [0.01, 0.05), "(marginal)" on
[0.05, 0.1), "n.s." at or above 0.1 — and the scripts that report tiers
use one and the same mapping. -/
theorem significance_tier_total (p : ℚ) :
    (p < 0.001 → get_significance p = "***") ∧
    (0.001 ≤ p → p < 0.01 → get_significance p = "**") ∧
    (0.01 ≤ p → p < 0.05 → get_significance p = "*") ∧
    (0.05 ≤ p → p < 0.1 → get_significance p = "(marginal)") ∧
    (0.1 ≤ p → get_significance p = "n.s.") ∧
    get_significance_final p = get_significance p := by
  have e : get_significance_final p = get_significance p := rfl
  refine ⟨fun h => ?_, fun h1 h2 => ?_, fun h1 h2 => ?_, fun h1 h2 => ?_, fun h1 => ?_, e⟩
  · unfold get_significance
    rw [if_pos h]
  · unfold get_significance
    rw [if_neg (not_lt.2 h1), if_pos h2]
  · unfold get_significance
    rw [if_neg (not_lt.2 (le_trans (by norm_num) h1)), if_neg (not_lt.2 h1), if_pos h2]
  · unfold get_significance
    rw [if_neg (not_lt.2 (le_trans (by norm_num) h1)),
      if_neg (not_lt.2 (le_trans (by norm_num) h1)), if_neg (not_lt.2 h1), if_pos h2]
  · unfold get_significance
    rw [if_neg (not_lt.2 (le_trans (by norm_num) h1)),
      if_neg (not_lt.2 (le_trans (by norm_num) h1)),
      if_neg (not_lt.2 (le_trans (by norm_num) h1)), if_neg (not_lt.2 h1)]

/-- Concrete instance of `significance_tier_total` at p = 0.02. -/
theorem significance_tier_total_w :
    get_significance 0.02 = "*" ∧ get_significance_final 0.02 = get_significance 0.02 :=
  ⟨(significance_tier_total 0.02).2.2.1 (by norm_num) (by norm_num),
    (significance_tier_total 0.02).2.2.2.2.2⟩

/-- Claim C1: the builders accept any `Task{t}_choice` value. A malformed
value "C", and a missing cell, are silently coded exactly like a choice
of "B" — the produced record is identical to the record of an explicit
"B" choice — and in the conditional-logit variant a malformed value
yields `chosen = 0` for both alternatives; no `InvalidChoiceError` (or
any error) exists on these paths. -/
theorem invalid_choice_defaulted :
    convertRowTask 0 (rowWithChoice (some "C")) 1 = convertRowTask 0 (rowWithChoice (some "B")) 1 ∧
    convertRowTask 0 (rowWithChoice none) 1 = convertRowTask 0 (rowWithChoice (some "B")) 1 ∧
    (convertRowTask 0 (rowWithChoice (some "C")) 1).choice = 0 ∧
    chosen_code (some "C") "A" = 0 ∧ chosen_code (some "C") "B" = 0 := by
  exact ⟨rfl, rfl, rfl, rfl, rfl⟩

/-- Claim C7: the effects coding of the 5-level Pricing attribute emits
5 design columns — one per level, including a redundant reference
column — not n − 1 = 4; and the dummy coding of
`conditional_logit_analysis` creates one column per level for every
attribute (2 for the binary Tutor attribute, 5 for Pricing), never
n − 1. -/
theorem pricing_column_count_eval :
    pricingColumnCount "School pays (free for families)" = 5 ∧
    pricingColumnCount "Free trial + $12.99/month" = 5 ∧
    (get_all_attribute_levels.filter (fun e => e.1 == "Pricing")).length = 5 ∧
    (get_all_attribute_levels.filter (fun e => e.1 == "Tutor")).length = 2 ∧
    (5 : Nat) ≠ 4 :=
  ⟨rfl, rfl, rfl, rfl, by norm_num⟩

/-- Claim C2: the reported percentage-point conversions of
`proper_conjoint_analysis` and `simple_conjoint_results` are the
`coef × 25` shortcut, not the Average Marginal Effect: for coefficient 1
with fitted probabilities [1/2, 1/4] they report 25 while the AME (the
formula `calculate_ame` of `improved_conditional_logit` computes) is
175/8 = 21.875. -/
theorem pp_effect_is_shortcut :
    calculate_pp_effects_proper [1] = [25] ∧
    calculate_pp_effects [1] = [25] ∧
    calculate_ame [1/2, 1/4] [1] = [175/8] ∧
    (25 : ℚ) ≠ 175/8 := by
  refine ⟨by norm_num [calculate_pp_effects_proper], by norm_num [calculate_pp_effects], ?_,
    by norm_num⟩
  show [listMean [1/2 * (1 - 1/2), 1/4 * (1 - 1/4)] * 1 * 100] = [175/8]
  norm_num [listMean]

/-- Claim C3: the corrected attribute analysis reports the minimum of two
different tests' p-values: with a chi-square p-value of 4/5 and a t-test
p-value of 1/5, the reported significance is min(4/5, 1/5) = 1/5 — two
methods silently combined by `min`. -/
theorem p_value_is_min_of_two_tests :
    analyze_single_attribute_p true true (4/5) true (1/5) = min (4/5 : ℚ) (1/5) ∧
    analyze_single_attribute_p true true (4/5) true (1/5) = 1/5 ∧
    (4/5 : ℚ) ≠ 1/5 := by
  refine ⟨rfl, ?_, by norm_num⟩
  show min (4/5 : ℚ) (1/5) = 1/5
  norm_num

/-- A design whose two columns are equal has a singular `XᵀWX` for every
weight vector. -/
theorem xtwx_dup_singular (X : List (ℚ × ℚ)) (w : List ℚ) (h : ∀ p ∈ X, p.1 = p.2) :
    (xtwx X w).a * (xtwx X w).d - (xtwx X w).b * (xtwx X w).c = 0 := by
  have key : ∀ f g : (ℚ × ℚ) × ℚ → ℚ,
      (∀ e : (ℚ × ℚ) × ℚ, e.1.1 = e.1.2 → f e = g e) →
      ((X.zip w).map f).sum = ((X.zip w).map g).sum := by
    intro f g hfg
    have : (X.zip w).map f = (X.zip w).map g := by
      apply List.map_congr_left
      intro e he
      exact hfg e (h e.1 (List.of_mem_zip he).1)
    rw [this]
  have hab : (xtwx X w).a = (xtwx X w).b := by
    apply key
    intro e he
    rw [he]
  have hcb : (xtwx X w).c = (xtwx X w).b := by
    apply key
    intro e he
    rw [he]
  have hdb : (xtwx X w).d = (xtwx X w).b := by
    apply key
    intro e he
    rw [he]
  rw [hab, hcb, hdb]
  ring

/-- Claim C4: on a rank-deficient design — here the duplicated column
X = [(1,1), (2,2), (3,3)], which makes `XᵀWX` singular for every weight
vector — `calculate_proper_p_values` returns the fabricated placeholder
p-values [0.5, 0.5] and `_calculate_p_values` substitutes the placeholder
standard errors [0.1, 0.1], whatever the Wald computation would be; the
linear-algebra failure is swallowed, not surfaced to the caller. -/
theorem placeholder_stats_on_singular (wald seOk : Mat2 → List ℚ) (w : List ℚ) :
    calculate_proper_p_values wald [(1, 1), (2, 2), (3, 3)] w = [1/2, 1/2] ∧
    calculate_p_values_se seOk [(1, 1), (2, 2), (3, 3)] w = [1/10, 1/10] := by
  have hdup : ∀ p ∈ [((1 : ℚ), (1 : ℚ)), (2, 2), (3, 3)], p.1 = p.2 := by
    intro p hp
    simp only [List.mem_cons, List.not_mem_nil, or_false] at hp
    rcases hp with h | h | h <;> rw [h]
  have hnone : invMat2 (xtwx [((1 : ℚ), (1 : ℚ)), (2, 2), (3, 3)] w) = none := by
    unfold invMat2
    rw [if_pos (xtwx_dup_singular _ w hdup)]
  constructor
  · unfold calculate_proper_p_values
    rw [hnone]
    rfl
  · unfold calculate_p_values_se
    rw [hnone]
    rfl

/-- Claim C10, counterexample: with original coefficient 0 and bootstrap
distribution [0] — reachable, since the except branch of the bootstrap
loop reuses the original coefficients — both tail fractions equal 1 and
the reported p-value is 2, outside [1e-6, 1]. -/
theorem bootstrap_p_exceeds_one : bootstrap_p 0 [0] = 2 ∧ ¬ bootstrap_p 0 [0] ≤ 1 := by
  have h : bootstrap_p 0 [0] = 2 := by
    unfold bootstrap_p tailFraction
    norm_num
  exact ⟨h, by rw [h]; norm_num⟩

/-- Counting two pointwise-exclusive predicates covers each entry at most
once. -/
theorem countP_add_le_of_exclusive (l : List ℚ) (p q : ℚ → Bool)
    (h : ∀ x, ¬(p x = true ∧ q x = true)) :
    l.countP p + l.countP q ≤ l.length := by
  induction l with
  | nil => simp
  | cons a t ih =>
    rw [List.countP_cons, List.countP_cons, List.length_cons]
    by_cases hp : p a = true
    · have hq : ¬ q a = true := fun hq => h a ⟨hp, hq⟩
      simp [hp, hq]
      omega
    · by_cases hq : q a = true
      · simp [hp, hq]
        omega
      · simp [hp, hq]
        omega

/-- Claim C10 (amended): the bootstrap p-value always lies in
[1e-6, 2]; it lies in [1e-6, 1] whenever the original coefficient is
nonzero — the unclamped two-tailed value `2·min` can only exceed 1 when
the coefficient is exactly 0, where both tails can overlap completely. -/
theorem bootstrap_p_bounds (orig : ℚ) (dist : List ℚ) (hne : dist ≠ []) :
    1/1000000 ≤ bootstrap_p orig dist ∧ bootstrap_p orig dist ≤ 2 ∧
    (orig ≠ 0 → bootstrap_p orig dist ≤ 1) := by
  have hlen : 0 < (dist.length : ℚ) := by
    have : 0 < dist.length := List.length_pos.2 hne
    exact_mod_cast this
  have hfrac : ∀ pred : ℚ → Bool, tailFraction dist pred ≤ 1 := by
    intro pred
    unfold tailFraction
    rw [div_le_one hlen]
    exact_mod_cast List.countP_le_length pred
  have hfrac0 : ∀ pred : ℚ → Bool, 0 ≤ tailFraction dist pred := by
    intro pred
    unfold tailFraction
    positivity
  refine ⟨le_max_right _ _, ?_, ?_⟩
  · apply max_le
    · nlinarith [hfrac (fun x => decide (|orig| ≤ x)),
        min_le_left (tailFraction dist (fun x => decide (|orig| ≤ x)))
          (tailFraction dist (fun x => decide (x ≤ -|orig|)))]
    · norm_num
  · intro horig
    have habs : 0 < |orig| := abs_pos.2 horig
    have hexcl : ∀ x : ℚ, ¬((decide (|orig| ≤ x)) = true ∧ (decide (x ≤ -|orig|)) = true) := by
      intro x hx
      have h1 : |orig| ≤ x := of_decide_eq_true hx.1
      have h2 : x ≤ -|orig| := of_decide_eq_true hx.2
      linarith
    have hsum : tailFraction dist (fun x => decide (|orig| ≤ x)) +
        tailFraction dist (fun x => decide (x ≤ -|orig|)) ≤ 1 := by
      unfold tailFraction
      rw [div_add_div_same, div_le_one hlen]
      exact_mod_cast countP_add_le_of_exclusive dist _ _ hexcl
    apply max_le
    · have hmin : 2 * min (tailFraction dist (fun x => decide (|orig| ≤ x)))
          (tailFraction dist (fun x => decide (x ≤ -|orig|))) ≤
          tailFraction dist (fun x => decide (|orig| ≤ x)) +
          tailFraction dist (fun x => decide (x ≤ -|orig|)) := by
        rcases min_le_iff.1 (le_refl (min (tailFraction dist (fun x => decide (|orig| ≤ x)))
          (tailFraction dist (fun x => decide (x ≤ -|orig|)))) ) with h | h
        all_goals
          nlinarith [min_le_left (tailFraction dist (fun x => decide (|orig| ≤ x)))
              (tailFraction dist (fun x => decide (x ≤ -|orig|))),
            min_le_right (tailFraction dist (fun x => decide (|orig| ≤ x)))
              (tailFraction dist (fun x => decide (x ≤ -|orig|)))]
      calc 2 * min (tailFraction dist (fun x => decide (|orig| ≤ x)))
            (tailFraction dist (fun x => decide (x ≤ -|orig|))) ≤ _ := hmin
        _ ≤ 1 := hsum
    · norm_num

/-- Concrete instance of `bootstrap_p_bounds` at coefficient 1 with
bootstrap distribution [2, 0, −2]. -/
theorem bootstrap_p_bounds_w :
    1/1000000 ≤ bootstrap_p 1 [2, 0, -2] ∧ bootstrap_p 1 [2, 0, -2] ≤ 2 ∧
    bootstrap_p 1 [2, 0, -2] ≤ 1 := by
  obtain ⟨h1, h2, h3⟩ := bootstrap_p_bounds 1 [2, 0, -2] (by simp)
  exact ⟨h1, h2, h3 (by norm_num)⟩

/-- Claim C6: a feature whose difference column sums to zero over all
ChoiceSets is excluded before estimation — it is not among
`final_features`, whose entries are exactly the columns of the design
matrix handed to the fitter — and, its code being an attribute level of
the study, it appears in the output as the placeholder record with
coefficient 0, p-value 1 and the excluded significance tier. -/
theorem zero_variance_excluded (fit : List (List ℚ) → List ℚ → FitResult)
    (d : DiffData) (f : String) (li : String × String)
    (hf : f ∈ d.features) (hs : colSum d f = 0)
    (hli : get_level_info (replaceDiff f) = some li) :
    f ∉ final_features d ∧ f ∈ collinear_features d ∧
    { attributeName := li.1
      level := li.2
      level_code := replaceDiff f
      coefficient := 0
      std_error := 0
      p_value := 1
      conf_lower := 0
      conf_upper := 0
      pp_effect := 0
      significance := "excluded (collinear)" } ∈ run_conditional_logit_model fit d := by
  have hcond : ¬ ((1 : ℚ)/10^10 < |colSum d f|) := by
    rw [hs]
    norm_num
  have hb : (!(decide ((1 : ℚ)/10^10 < |colSum d f|))) = true := by
    rw [Bool.not_eq_true', decide_eq_false_iff_not]
    exact hcond
  refine ⟨?_, ?_, ?_⟩
  · intro hmem
    rw [final_features, List.mem_filter] at hmem
    exact hcond (of_decide_eq_true hmem.2)
  · rw [collinear_features, List.mem_filter]
    exact ⟨hf, hb⟩
  · unfold run_conditional_logit_model
    apply List.mem_append_right
    rw [List.mem_filterMap]
    refine ⟨f, ?_, ?_⟩
    · rw [collinear_features, List.mem_filter]
      exact ⟨hf, hb⟩
    · rw [hli]
      rfl

/-- Concrete instance of `zero_variance_excluded` on `wData`. -/
theorem zero_variance_excluded_w :
    "male_tutor_diff" ∉ final_features wData ∧
    "male_tutor_diff" ∈ collinear_features wData ∧
    { attributeName := "Tutor"
      level := "Male AI tutor"
      level_code := replaceDiff "male_tutor_diff"
      coefficient := 0
      std_error := 0
      p_value := 1
      conf_lower := 0
      conf_upper := 0
      pp_effect := 0
      significance := "excluded (collinear)" } ∈ run_conditional_logit_model constFit wData :=
  zero_variance_excluded constFit wData "male_tutor_diff" ("Tutor", "Male AI tutor")
    (by simp [wData]) (by norm_num [colSum, wData]) (by rfl)

/-- Claim C5: with the `A_Tutor1` column absent, the long-format builder
silently produces a record carrying only 6 of the 7 attributes — the
Tutor entry is simply missing — instead of failing; no
`MissingFieldError` (or any error path) exists in the source. -/
theorem missing_column_skipped :
    (convert_long_attrs fullRowA "A" 1).length = 7 ∧
    (convert_long_attrs rowMissingTutor "A" 1).length = 6 ∧
    (convert_long_attrs rowMissingTutor "A" 1).map Prod.fst =
      ["color_palette", "pricing", "message_success_", "message_failure_",
        "storytelling", "role_play"] :=
  ⟨rfl, rfl, rfl⟩

/-- The coefficient column of the results table, over arbitrary
coefficient/p-value/effect vectors. -/
theorem robust_table_coefficients (features : List String) (c p q : List ℚ) :
    (features.enum.map (fun e =>
      { feature := e.2
        coefficient := c.getD e.1 0
        p_value := p.getD e.1 0
        pp_effect := q.getD e.1 0
        significance := get_significance_final (p.getD e.1 0) : RobustRec })).map
      (fun r => r.coefficient) = features.enum.map (fun e => c.getD e.1 0) := by
  rw [List.map_map]
  exact List.map_congr_left (fun e he => rfl)

/-- The effect-size column of the results table, over arbitrary
coefficient/p-value/effect vectors. -/
theorem robust_table_pp_effects (features : List String) (c p q : List ℚ) :
    (features.enum.map (fun e =>
      { feature := e.2
        coefficient := c.getD e.1 0
        p_value := p.getD e.1 0
        pp_effect := q.getD e.1 0
        significance := get_significance_final (p.getD e.1 0) : RobustRec })).map
      (fun r => r.pp_effect) = features.enum.map (fun e => q.getD e.1 0) := by
  rw [List.map_map]
  exact List.map_congr_left (fun e he => rfl)

/-- The coefficients the analysis reports do not depend on the random
stream: they are the fitted MLE coefficients of (X, y). -/
theorem run_robust_coefficients (ex : ℚ → ℚ) (rng : Nat → Nat)
    (features : List String) (X : List (List ℚ)) (y : List ℚ) :
    (run_robust_analysis ex rng features X y).map (fun r => r.coefficient) =
      features.enum.map (fun e => (fitLogit ex X y).getD e.1 0) := by
  unfold run_robust_analysis
  exact robust_table_coefficients features (fitLogit ex X y)
    (calculate_bootstrap_p_values ex rng (fitLogit ex X y) X y 1000)
    (calculate_pp_effects_final (fitLogit ex X y))

/-- The effect sizes the analysis reports do not depend on the random
stream: they are derived from the fitted coefficients of (X, y) alone. -/
theorem run_robust_pp_effects (ex : ℚ → ℚ) (rng : Nat → Nat)
    (features : List String) (X : List (List ℚ)) (y : List ℚ) :
    (run_robust_analysis ex rng features X y).map (fun r => r.pp_effect) =
      features.enum.map (fun e => (calculate_pp_effects_final (fitLogit ex X y)).getD e.1 0) := by
  unfold run_robust_analysis
  exact robust_table_pp_effects features (fitLogit ex X y)
    (calculate_bootstrap_p_values ex rng (fitLogit ex X y) X y 1000)
    (calculate_pp_effects_final (fitLogit ex X y))

/-- Claim C8: the fitted coefficients and the derived effect sizes are a
deterministic function of (X, y): two runs of the analysis that differ
in the ambient random stream — the only state that varies between two
invocations on identical data, consumed by the bootstrap resampler —
report identical coefficients, identical percentage-point effects, and
identical AMEs derived from those coefficients. (The bootstrap p-value
columns are allowed to differ.) -/
theorem estimator_deterministic (ex : ℚ → ℚ) (rng₁ rng₂ : Nat → Nat)
    (features : List String) (X : List (List ℚ)) (y : List ℚ) (probs : List ℚ) :
    (run_robust_analysis ex rng₁ features X y).map (fun r => r.coefficient) =
      (run_robust_analysis ex rng₂ features X y).map (fun r => r.coefficient) ∧
    (run_robust_analysis ex rng₁ features X y).map (fun r => r.pp_effect) =
      (run_robust_analysis ex rng₂ features X y).map (fun r => r.pp_effect) ∧
    calculate_ame probs ((run_robust_analysis ex rng₁ features X y).map (fun r => r.coefficient)) =
      calculate_ame probs ((run_robust_analysis ex rng₂ features X y).map (fun r => r.coefficient)) := by
  have hc : (run_robust_analysis ex rng₁ features X y).map (fun r => r.coefficient) =
      (run_robust_analysis ex rng₂ features X y).map (fun r => r.coefficient) := by
    rw [run_robust_coefficients, run_robust_coefficients]
  have hp : (run_robust_analysis ex rng₁ features X y).map (fun r => r.pp_effect) =
      (run_robust_analysis ex rng₂ features X y).map (fun r => r.pp_effect) := by
    rw [run_robust_pp_effects, run_robust_pp_effects]
  exact ⟨hc, hp, by rw [hc]⟩

end SheRockets

